import Mathlib

/-!
Shallow embedding of the UI-component gallery client code:
`ComponentCard` (like/save toggles), the `Home` feed fetch, and the
`Publish` form submit.  External data-service calls are modelled by an
explicit outcome parameter; local React state is passed and returned
explicitly; side effects (toasts, issued mutations, navigation, the
refresh callback) are collected in result records.
-/

/-- Outcome of one awaited external data-service request, as observed by the
client code: the call may resolve normally, resolve carrying an error object
inside its result (which the caller may check or silently discard), or reject,
throwing into the surrounding try/catch. -/
inductive ReqOutcome where
  | success
  | errorResult
  | thrown
deriving DecidableEq, Repr

/-- Local React state of one `ComponentCard`: the `isLiked`/`isSaved` booleans
and the `likesCount`/`savesCount` counters.  Counters are JavaScript numbers,
modelled as integers (the code never clamps them). -/
structure CardState where
  isLiked : Bool
  isSaved : Bool
  likesCount : Int
  savesCount : Int
deriving DecidableEq, Repr

/-- A join-table mutation request issued against the data service. -/
inductive DbMutation where
  | deleteLike (userId componentId : Nat)
  | insertLike (userId componentId : Nat)
  | deleteSave (userId componentId : Nat)
  | insertSave (userId componentId : Nat)
deriving DecidableEq, Repr

/-- Result of running `handleLike` or `handleSave`: the new card state, the
toast notices shown, the mutation requests issued, and whether the
caller-supplied refresh callback (`onLike?.()` / `onSave?.()`) was invoked. -/
structure HandleResult where
  state : CardState
  toasts : List String
  mutations : List DbMutation
  callbackInvoked : Bool
deriving DecidableEq, Repr

/-- Embedding of `ComponentCard.handleLike`.  With no signed-in user it shows
the sign-in toast and returns.  Otherwise it awaits a delete (when `isLiked`)
or an insert (otherwise); if that await throws, the catch shows the failure
toast and no state update runs (the setters come after the await); if it
resolves — even with an ignored error object in the result — the boolean is
flipped, the counter is decremented/incremented, and the callback runs. -/
def handleLike (user : Option Nat) (componentId : Nat) (s : CardState)
    (outcome : ReqOutcome) : HandleResult :=
  match user with
  | none =>
      { state := s, toasts := ["Please sign in to like components"],
        mutations := [], callbackInvoked := false }
  | some uid =>
      let req := if s.isLiked then DbMutation.deleteLike uid componentId
                 else DbMutation.insertLike uid componentId
      match outcome with
      | ReqOutcome.thrown =>
          { state := s, toasts := ["Failed to update like"],
            mutations := [req], callbackInvoked := false }
      | _ =>
          if s.isLiked then
            { state := { s with isLiked := false, likesCount := s.likesCount - 1 },
              toasts := [], mutations := [req], callbackInvoked := true }
          else
            { state := { s with isLiked := true, likesCount := s.likesCount + 1 },
              toasts := [], mutations := [req], callbackInvoked := true }

/-- Embedding of `ComponentCard.handleSave`, mirror image of `handleLike` on
the `saved_components` table and the `isSaved`/`savesCount` state. -/
def handleSave (user : Option Nat) (componentId : Nat) (s : CardState)
    (outcome : ReqOutcome) : HandleResult :=
  match user with
  | none =>
      { state := s, toasts := ["Please sign in to save components"],
        mutations := [], callbackInvoked := false }
  | some uid =>
      let req := if s.isSaved then DbMutation.deleteSave uid componentId
                 else DbMutation.insertSave uid componentId
      match outcome with
      | ReqOutcome.thrown =>
          { state := s, toasts := ["Failed to update save"],
            mutations := [req], callbackInvoked := false }
      | _ =>
          if s.isSaved then
            { state := { s with isSaved := false, savesCount := s.savesCount - 1 },
              toasts := [], mutations := [req], callbackInvoked := true }
          else
            { state := { s with isSaved := true, savesCount := s.savesCount + 1 },
              toasts := [], mutations := [req], callbackInvoked := true }

/-- One row of the `components` table (timestamps as integers). -/
structure ComponentRow where
  id : Nat
  user_id : Nat
  title : String
  description : Option String
  code : String
  tags : List String
  preview_image_url : Option String
  likes_count : Int
  saves_count : Int
  created_at : Int
deriving DecidableEq, Repr

/-- One row of the `profiles` table. -/
structure ProfileRow where
  id : Nat
  full_name : Option String
  avatar_url : Option String
deriving DecidableEq, Repr

/-- One row of a (user, component) join table: `likes` or `saved_components`. -/
structure JoinRow where
  user_id : Nat
  component_id : Nat
  created_at : Int
deriving DecidableEq, Repr

/-- The external data service's tables, as read by the client. -/
structure Database where
  components : List ComponentRow
  profiles : List ProfileRow
  likes : List JoinRow
  saved_components : List JoinRow
deriving DecidableEq, Repr

/-- A feed entry as held in `Home`'s `components` state: the row, the joined
profile, and the viewer's like/save annotations (absent fields are falsy in
the rendering, so they are modelled as `false`). -/
structure FeedComponent where
  row : ComponentRow
  profile : Option ProfileRow
  is_liked : Bool
  is_saved : Bool
deriving DecidableEq, Repr

/-- The `sortBy` state of the `Home` view. -/
inductive SortBy where
  | newest
  | trending
  | saved
deriving DecidableEq, Repr

/-- Outcomes of the individual requests a single `fetchComponents` run can
issue: the saved-join query and its follow-up likes query (saved branch), or
the main components query and the two membership queries (other branch). -/
structure FetchOutcomes where
  savedQuery : ReqOutcome
  savedLikesQuery : ReqOutcome
  mainQuery : ReqOutcome
  likesQuery : ReqOutcome
  savesQuery : ReqOutcome
deriving DecidableEq, Repr

/-- The run where every request resolves successfully. -/
def allSuccess : FetchOutcomes :=
  ⟨ReqOutcome.success, ReqOutcome.success, ReqOutcome.success,
   ReqOutcome.success, ReqOutcome.success⟩

/-- Result of one `fetchComponents` run: the new `components` state, the
toasts shown, and the final `loading` flag (always reset in `finally`). -/
structure FetchResult where
  components : List FeedComponent
  toasts : List String
  loading : Bool
deriving DecidableEq, Repr

/-- The toast shown by `fetchComponents`'s catch block. -/
def loadErrorToast : String := "Failed to load components"

/-- Model of the external service's `order(col, ascending: false)` clause:
a stable sort putting larger keys first. -/
def orderByDesc (key : α → Int) (l : List α) : List α :=
  List.insertionSort (fun a b => key b ≤ key a) l

/-- The order key requested by the non-saved feed query: `likes_count` for
trending, `created_at` otherwise. -/
def sortKey (sb : SortBy) (c : ComponentRow) : Int :=
  match sb with
  | SortBy.trending => c.likes_count
  | _ => c.created_at

/-- A membership query on a join table restricted to a user and an id set,
as consumed by `fetchComponents`: an error result is silently discarded
(`data` is null, defaulted to an empty list); otherwise the matching rows'
component ids are returned.  A thrown outcome is handled by the caller. -/
def queryIds (oc : ReqOutcome) (tbl : List JoinRow) (uid : Nat)
    (ids : List Nat) : List Nat :=
  match oc with
  | ReqOutcome.errorResult => []
  | _ => (tbl.filter (fun j => j.user_id == uid && ids.contains j.component_id)).map
      (fun j => j.component_id)

/-- The left join `profiles (*)` embedded in the components query. -/
def profileFor (db : Database) (c : ComponentRow) : Option ProfileRow :=
  db.profiles.find? (fun p => p.id == c.user_id)

/-- A fetched row before any viewer annotation (no `is_liked`/`is_saved`
fields; both are falsy). -/
def plainFeed (db : Database) (c : ComponentRow) : FeedComponent :=
  ⟨c, profileFor db c, false, false⟩

/-- The `data` of the non-saved components query: all components ordered by
the requested sort key descending. -/
def mainFeedRows (sb : SortBy) (db : Database) : List ComponentRow :=
  orderByDesc (sortKey sb) db.components

/-- The row annotated with the viewer's membership sets in the non-saved
branch. -/
def annotateRow (sb : SortBy) (uid : Nat) (db : Database) (oc : FetchOutcomes)
    (c : ComponentRow) : FeedComponent :=
  ⟨c, profileFor db c,
   (queryIds oc.likesQuery db.likes uid
     ((mainFeedRows sb db).map (fun c => c.id))).contains c.id,
   (queryIds oc.savesQuery db.saved_components uid
     ((mainFeedRows sb db).map (fun c => c.id))).contains c.id⟩

/-- The non-saved branch of `fetchComponents`: query the components table
ordered by the sort key (an error result is thrown by the code and caught);
when a viewer is present and the list is non-empty, run the two membership
queries concurrently (a rejection of either rejects the join and is caught;
error results are silently treated as empty membership) and annotate every
row; otherwise store the rows unannotated. -/
def fetchMain (sb : SortBy) (user : Option Nat) (db : Database)
    (prev : List FeedComponent) (oc : FetchOutcomes) : FetchResult :=
  if oc.mainQuery = ReqOutcome.success then
    match user with
    | some uid =>
        if (mainFeedRows sb db).isEmpty then
          ⟨(mainFeedRows sb db).map (plainFeed db), [], false⟩
        else if oc.likesQuery = ReqOutcome.thrown ∨ oc.savesQuery = ReqOutcome.thrown then
          ⟨prev, [loadErrorToast], false⟩
        else
          ⟨(mainFeedRows sb db).map (annotateRow sb uid db oc), [], false⟩
    | none => ⟨(mainFeedRows sb db).map (plainFeed db), [], false⟩
  else ⟨prev, [loadErrorToast], false⟩

/-- The saved-branch projection: the viewer's saved-join rows ordered by join
creation time descending, inner joined with the referenced components, every
projected entry marked saved. -/
def savedProjection (uid : Nat) (db : Database) : List FeedComponent :=
  (orderByDesc (fun j => j.created_at)
      (db.saved_components.filter (fun j => j.user_id == uid))).filterMap (fun j =>
    (db.components.find? (fun c => c.id == j.component_id)).map
      (fun c => FeedComponent.mk c (profileFor db c) false true))

/-- The saved branch of `fetchComponents`: run the saved-join projection (an
error result is thrown by the code and caught); when the list is non-empty,
run the likes membership query (rejection caught; an error result silently
treated as empty membership) and annotate `is_liked`; an empty list is stored
as `[]`. -/
def fetchSaved (uid : Nat) (db : Database) (prev : List FeedComponent)
    (oc : FetchOutcomes) : FetchResult :=
  if oc.savedQuery = ReqOutcome.success then
    if (savedProjection uid db).isEmpty then ⟨[], [], false⟩
    else if oc.savedLikesQuery = ReqOutcome.thrown then ⟨prev, [loadErrorToast], false⟩
    else
      ⟨(savedProjection uid db).map (fun c =>
          { c with is_liked :=
              (queryIds oc.savedLikesQuery db.likes uid
                ((savedProjection uid db).map (fun c => c.row.id))).contains c.row.id }),
       [], false⟩
  else ⟨prev, [loadErrorToast], false⟩

/-- Embedding of `Home.fetchComponents`: the saved branch runs only for
`sortBy = saved` with a signed-in viewer; every other combination takes the
regular feed branch. -/
def fetchComponents (sb : SortBy) (user : Option Nat) (db : Database)
    (prev : List FeedComponent) (oc : FetchOutcomes) : FetchResult :=
  match sb, user with
  | SortBy.saved, some uid => fetchSaved uid db prev oc
  | _, _ => fetchMain sb user db prev oc

/-- JavaScript's `String.prototype.trim`: whitespace stripped from both
ends, written over the character list so it evaluates in the kernel. -/
def jsTrim (s : String) : String :=
  String.mk (((s.data.dropWhile Char.isWhitespace).reverse.dropWhile
    Char.isWhitespace).reverse)

/-- The `Publish` form state (the tag input box included). -/
structure FormData where
  title : String
  description : String
  code : String
  tags : List String
  tagInput : String
deriving DecidableEq, Repr

/-- The row `handleSubmit` inserts into the `components` table. -/
structure InsertPayload where
  user_id : Nat
  title : String
  description : Option String
  code : String
  tags : List String
  preview_image_url : Option String
deriving DecidableEq, Repr

/-- Outcomes of the requests one `handleSubmit` run can issue: the optional
blob upload and the component insert. -/
structure PublishOutcomes where
  upload : ReqOutcome
  insert : ReqOutcome
deriving DecidableEq, Repr

/-- Result of one `handleSubmit` run: the inserted row (if any), the toasts
shown, the navigation target (if any), the form state afterwards, and the
final `loading` flag. -/
structure SubmitResult where
  inserted : Option InsertPayload
  toasts : List String
  navigatedTo : Option String
  form : FormData
  loading : Bool
deriving DecidableEq, Repr

/-- The public URL the storage client reports for an uploaded file path. -/
def publicUrl (filePath : String) : String :=
  "storage/component-previews/" ++ filePath

/-- Embedding of `Publish.handleSubmit`.  `previewImage` carries the selected
file's name; `randName` stands for the random file stem the code generates.
Without a user it returns silently.  Empty trimmed title or code is rejected
with a toast.  Otherwise: when an image is selected, the upload runs — an
error result is only logged, leaving the preview URL null, while a rejection
is caught with the failure toast before any insert; then the row is inserted
(an error result is re-thrown by the code), and on success the success toast
shows and navigation to the feed happens.  The form state is never mutated. -/
def handleSubmit (user : Option Nat) (form : FormData)
    (previewImage : Option String) (randName : String)
    (oc : PublishOutcomes) : SubmitResult :=
  match user with
  | none => ⟨none, [], none, form, false⟩
  | some uid =>
      if jsTrim form.title = "" ∨ jsTrim form.code = "" then
        ⟨none, ["Please fill in all required fields"], none, form, false⟩
      else
        match previewImage, oc.upload with
        | some _, ReqOutcome.thrown =>
            ⟨none, ["Failed to publish component"], none, form, false⟩
        | img, _ =>
            let previewImageUrl : Option String :=
              match img, oc.upload with
              | some nm, ReqOutcome.success =>
                  some (publicUrl ("previews/" ++ randName ++ "." ++
                    ((nm.splitOn ".").getLastD "")))
              | _, _ => none
            match oc.insert with
            | ReqOutcome.success =>
                ⟨some ⟨uid, jsTrim form.title,
                    (if jsTrim form.description = "" then none
                     else some (jsTrim form.description)),
                    jsTrim form.code, form.tags, previewImageUrl⟩,
                 ["Component published successfully!"], some "/", form, false⟩
            | _ =>
                ⟨none, ["Failed to publish component"], none, form, false⟩

/-! ### Claim C1: behaviour of like/save toggles when the request fails -/

/-- C1 counterexample.  The claim says a failed delete/insert both surfaces a
notice and leaves the flag/counter flipped.  At the concrete input below: when
the insert resolves with an (ignored) error result, the state is flipped but
no notice at all is shown; when the insert rejects, the notice is shown but
the flag and counter are exactly as before the click — the update was never
applied, so there was nothing to roll back. -/
theorem C1_counterexample :
    (handleLike (some 1) 42 ⟨false, false, 5, 0⟩ ReqOutcome.errorResult).toasts = [] ∧
    (handleLike (some 1) 42 ⟨false, false, 5, 0⟩ ReqOutcome.errorResult).state.isLiked = true ∧
    (handleLike (some 1) 42 ⟨false, false, 5, 0⟩ ReqOutcome.thrown).toasts =
      ["Failed to update like"] ∧
    (handleLike (some 1) 42 ⟨false, false, 5, 0⟩ ReqOutcome.thrown).state =
      ⟨false, false, 5, 0⟩ := by
  refine ⟨rfl, rfl, rfl, rfl⟩

/-- C1 amended: for a signed-in user, a like or save request that rejects
(throws) surfaces the failure notice and leaves the boolean flag and the
counter exactly at their prior values (the update, which only runs after the
await, is never applied); a request that resolves carrying an error object is
indistinguishable from success — the flag and counter change and no notice is
shown. -/
theorem C1_like_save_failure_modes (uid cid : Nat) (s : CardState) :
    ((handleLike (some uid) cid s ReqOutcome.thrown).toasts = ["Failed to update like"] ∧
      (handleLike (some uid) cid s ReqOutcome.thrown).state = s) ∧
    (handleLike (some uid) cid s ReqOutcome.errorResult =
      handleLike (some uid) cid s ReqOutcome.success ∧
      (handleLike (some uid) cid s ReqOutcome.success).toasts = []) ∧
    ((handleSave (some uid) cid s ReqOutcome.thrown).toasts = ["Failed to update save"] ∧
      (handleSave (some uid) cid s ReqOutcome.thrown).state = s) ∧
    (handleSave (some uid) cid s ReqOutcome.errorResult =
      handleSave (some uid) cid s ReqOutcome.success ∧
      (handleSave (some uid) cid s ReqOutcome.success).toasts = []) := by
  unfold handleLike handleSave
  by_cases hl : s.isLiked <;> by_cases hs : s.isSaved <;> simp [hl, hs]

/-! ### Claim C5: like toggled twice from a clean state -/

/-- C5: starting from a not-liked state, a successful like toggle followed by
a successful un-like toggle returns the local likes counter to its original
value and the liked flag to false (the saved flag and counter untouched). -/
theorem C5_like_twice_roundtrip (uid cid : Nat) (sv : Bool) (lc sc : Int) :
    (handleLike (some uid) cid
        (handleLike (some uid) cid ⟨false, sv, lc, sc⟩ ReqOutcome.success).state
        ReqOutcome.success).state = ⟨false, sv, lc, sc⟩ := by
  simp [handleLike]

/-! ### Claim C6: like click without a signed-in viewer -/

/-- C6: a like click with no signed-in user issues no join-row mutation, shows
the authentication-required notice, leaves the card state unchanged, and does
not invoke the refresh callback — whatever the ambient request outcome. -/
theorem C6_like_requires_auth (cid : Nat) (s : CardState) (oc : ReqOutcome) :
    handleLike none cid s oc =
      ⟨s, ["Please sign in to like components"], [], false⟩ := by
  simp [handleLike]

/-! ### Claim C10: toggle-off decrements without clamping -/

/-- C10: a successful like or save toggle-off by a signed-in user decrements
the corresponding local counter by exactly one, for every current value; in
particular toggling off at counter 0 yields -1. -/
theorem C10_toggle_off_decrements (uid cid : Nat) (b : Bool) (lc sc : Int) :
    (handleLike (some uid) cid ⟨true, b, lc, sc⟩ ReqOutcome.success).state.likesCount =
      lc - 1 ∧
    (handleSave (some uid) cid ⟨b, true, lc, sc⟩ ReqOutcome.success).state.savesCount =
      sc - 1 ∧
    (handleLike (some uid) cid ⟨true, b, 0, sc⟩ ReqOutcome.success).state.likesCount = -1 ∧
    (handleSave (some uid) cid ⟨b, true, lc, 0⟩ ReqOutcome.success).state.savesCount = -1 := by
  simp [handleLike, handleSave]

/-! ### Claim C7: empty title or code rejected client-side -/

/-- C7: a publish submission by a signed-in user whose title or code is empty
after trimming is rejected with the required-fields notice: no row is
inserted, no navigation happens, and the form is untouched. -/
theorem C7_empty_fields_rejected (uid : Nat) (form : FormData)
    (img : Option String) (rand : String) (oc : PublishOutcomes)
    (h : jsTrim form.title = "" ∨ jsTrim form.code = "") :
    handleSubmit (some uid) form img rand oc =
      ⟨none, ["Please fill in all required fields"], none, form, false⟩ := by
  simp only [handleSubmit]
  rw [if_pos h]

/-- C7 witness: the concrete submission with title `"  "` (blank after
trimming) and code `"x"` is rejected with the notice and no insert. -/
theorem C7_witness :
    (jsTrim "  " = "" ∨ jsTrim "x" = "") ∧
    handleSubmit (some 3) ⟨"  ", "d", "x", [], ""⟩ none "r"
        ⟨ReqOutcome.success, ReqOutcome.success⟩ =
      ⟨none, ["Please fill in all required fields"], none, ⟨"  ", "d", "x", [], ""⟩, false⟩ :=
  ⟨Or.inl (by decide),
   C7_empty_fields_rejected 3 ⟨"  ", "d", "x", [], ""⟩ none "r"
     ⟨ReqOutcome.success, ReqOutcome.success⟩ (Or.inl (by decide))⟩

/-! ### Claim C8: submit success redirects, failure toasts and keeps the form -/

/-- C8: for a signed-in user's submission passing validation, a successful
insert navigates to the feed; a failing run (insert error, or the upload
rejecting before the insert) surfaces the failure notice and does not
navigate; and in every case `handleSubmit` leaves the form state exactly as
entered. -/
theorem C8_submit_redirect_or_notice (uid : Nat) (form : FormData)
    (img : Option String) (rand : String) (oc : PublishOutcomes)
    (ht : jsTrim form.title ≠ "") (hc : jsTrim form.code ≠ "") :
    ((oc.insert = ReqOutcome.success ∧
        ¬(img.isSome ∧ oc.upload = ReqOutcome.thrown)) →
      (handleSubmit (some uid) form img rand oc).navigatedTo = some "/") ∧
    ((oc.insert ≠ ReqOutcome.success ∨ (img.isSome ∧ oc.upload = ReqOutcome.thrown)) →
      (handleSubmit (some uid) form img rand oc).toasts = ["Failed to publish component"] ∧
      (handleSubmit (some uid) form img rand oc).navigatedTo = none) ∧
    (handleSubmit (some uid) form img rand oc).form = form := by
  obtain ⟨up, ins⟩ := oc
  simp only [handleSubmit]
  rw [if_neg (by simp [ht, hc])]
  rcases img with _ | nm <;> cases up <;> cases ins <;> simp

/-- C8 witness: a concrete valid submission with no image navigates to the
feed when the insert succeeds, and with a failing insert shows the failure
notice, does not navigate, and keeps the entered form values. -/
theorem C8_witness :
    (handleSubmit (some 1) ⟨"t", "", "c", [], ""⟩ none "r"
        ⟨ReqOutcome.success, ReqOutcome.success⟩).navigatedTo = some "/" ∧
    (handleSubmit (some 1) ⟨"t", "", "c", [], ""⟩ none "r"
        ⟨ReqOutcome.success, ReqOutcome.errorResult⟩).toasts =
      ["Failed to publish component"] ∧
    (handleSubmit (some 1) ⟨"t", "", "c", [], ""⟩ none "r"
        ⟨ReqOutcome.success, ReqOutcome.errorResult⟩).form = ⟨"t", "", "c", [], ""⟩ :=
  ⟨(C8_submit_redirect_or_notice 1 ⟨"t", "", "c", [], ""⟩ none "r"
      ⟨ReqOutcome.success, ReqOutcome.success⟩ (by decide) (by decide)).1
      ⟨rfl, by simp⟩,
   ((C8_submit_redirect_or_notice 1 ⟨"t", "", "c", [], ""⟩ none "r"
      ⟨ReqOutcome.success, ReqOutcome.errorResult⟩ (by decide) (by decide)).2.1
      (Or.inl (by decide))).1,
   (C8_submit_redirect_or_notice 1 ⟨"t", "", "c", [], ""⟩ none "r"
      ⟨ReqOutcome.success, ReqOutcome.errorResult⟩ (by decide) (by decide)).2.2⟩

/-! ### Claim C9: a failed preview upload does not abort publication -/

/-- C9: for a signed-in user's valid submission with a selected preview image
whose upload resolves with an error result while the insert succeeds, the
component row is still inserted — with a null preview image reference — and
the only toast shown is the success notice: the upload failure is never
surfaced to the user. -/
theorem C9_upload_failure_silent (uid : Nat) (form : FormData) (nm rand : String)
    (ht : jsTrim form.title ≠ "") (hc : jsTrim form.code ≠ "") :
    (handleSubmit (some uid) form (some nm) rand
        ⟨ReqOutcome.errorResult, ReqOutcome.success⟩).inserted =
      some ⟨uid, jsTrim form.title,
        (if jsTrim form.description = "" then none else some (jsTrim form.description)),
        jsTrim form.code, form.tags, none⟩ ∧
    (handleSubmit (some uid) form (some nm) rand
        ⟨ReqOutcome.errorResult, ReqOutcome.success⟩).toasts =
      ["Component published successfully!"] ∧
    (handleSubmit (some uid) form (some nm) rand
        ⟨ReqOutcome.errorResult, ReqOutcome.success⟩).navigatedTo = some "/" := by
  simp only [handleSubmit]
  rw [if_neg (by simp [ht, hc])]
  simp

/-- C9 witness: concrete valid submission with image `"p.png"`, failing
upload and successful insert: the row is inserted with a null preview
reference and only the success toast shows. -/
theorem C9_witness :
    (handleSubmit (some 2) ⟨"t", "", "c", ["tag"], ""⟩ (some "p.png") "r"
        ⟨ReqOutcome.errorResult, ReqOutcome.success⟩).inserted =
      some ⟨2, jsTrim "t",
        (if jsTrim "" = "" then none else some (jsTrim "")),
        jsTrim "c", ["tag"], none⟩ ∧
    (handleSubmit (some 2) ⟨"t", "", "c", ["tag"], ""⟩ (some "p.png") "r"
        ⟨ReqOutcome.errorResult, ReqOutcome.success⟩).toasts =
      ["Component published successfully!"] ∧
    (handleSubmit (some 2) ⟨"t", "", "c", ["tag"], ""⟩ (some "p.png") "r"
        ⟨ReqOutcome.errorResult, ReqOutcome.success⟩).navigatedTo = some "/" :=
  C9_upload_failure_silent 2 ⟨"t", "", "c", ["tag"], ""⟩ "p.png" "r"
    (by decide) (by decide)

/-! ### Sorting helpers for the feed -/

/-- The descending-order model really is sorted: each element's key is at
least every later element's key. -/
theorem sorted_orderByDesc (key : α → Int) (l : List α) :
    (orderByDesc key l).Sorted (fun a b => key b ≤ key a) := by
  haveI : IsTotal α (fun a b => key b ≤ key a) :=
    ⟨fun a b => (le_total (key b) (key a)).elim Or.inl Or.inr⟩
  haveI : IsTrans α (fun a b => key b ≤ key a) :=
    ⟨fun _ _ _ h1 h2 => le_trans h2 h1⟩
  exact List.sorted_insertionSort _ l

/-- Sorting permutes, so membership is preserved. -/
theorem mem_orderByDesc {key : α → Int} {l : List α} {a : α} :
    a ∈ orderByDesc key l ↔ a ∈ l :=
  (List.perm_insertionSort _ l).mem_iff

/-- Mapping a row-preserving annotation over a descending-sorted row list
yields a list sorted by the key of the underlying row. -/
theorem sorted_map_row (key : ComponentRow → Int) (f : ComponentRow → FeedComponent)
    (hf : ∀ c, (f c).row = c) (l : List ComponentRow) :
    ((orderByDesc key l).map f).Sorted (fun a b => key b.row ≤ key a.row) := by
  refine List.Pairwise.map f (fun a b h => ?_) (sorted_orderByDesc key l)
  rw [hf a, hf b]
  exact h

/-- On a fully successful run, the non-saved fetch stores exactly the ordered
component list under some row-preserving annotation. -/
theorem fetchMain_components_allSuccess (sb : SortBy) (user : Option Nat)
    (db : Database) (prev : List FeedComponent) :
    ∃ f : ComponentRow → FeedComponent, (∀ c, (f c).row = c) ∧
      (fetchMain sb user db prev allSuccess).components =
        (orderByDesc (sortKey sb) db.components).map f := by
  cases user with
  | none => exact ⟨plainFeed db, fun c => rfl, by simp [fetchMain, allSuccess, mainFeedRows]⟩
  | some uid =>
      by_cases h : orderByDesc (sortKey sb) db.components = []
      · exact ⟨plainFeed db, fun c => rfl,
          by simp [fetchMain, allSuccess, mainFeedRows, h]⟩
      · exact ⟨annotateRow sb uid db allSuccess, fun c => rfl,
          by simp [fetchMain, allSuccess, mainFeedRows, List.isEmpty_iff, h]⟩

/-! ### Claim C3: feed order matches the stated comparator -/

/-- C3: on a successful fetch, the newest-mode feed is ordered by creation
time descending and the trending-mode feed by like counter descending, for
every viewer, database and previous state. -/
theorem C3_feed_order (user : Option Nat) (db : Database)
    (prev : List FeedComponent) :
    ((fetchComponents SortBy.newest user db prev allSuccess).components.Sorted
      (fun a b => b.row.created_at ≤ a.row.created_at)) ∧
    ((fetchComponents SortBy.trending user db prev allSuccess).components.Sorted
      (fun a b => b.row.likes_count ≤ a.row.likes_count)) := by
  constructor
  · obtain ⟨f, hf, heq⟩ := fetchMain_components_allSuccess SortBy.newest user db prev
    have hfc : fetchComponents SortBy.newest user db prev allSuccess =
        fetchMain SortBy.newest user db prev allSuccess := by
      cases user <;> rfl
    rw [hfc, heq]
    exact sorted_map_row (sortKey SortBy.newest) f hf db.components
  · obtain ⟨f, hf, heq⟩ := fetchMain_components_allSuccess SortBy.trending user db prev
    have hfc : fetchComponents SortBy.trending user db prev allSuccess =
        fetchMain SortBy.trending user db prev allSuccess := by
      cases user <;> rfl
    rw [hfc, heq]
    exact sorted_map_row (sortKey SortBy.trending) f hf db.components

/-! ### Claim C4: saved-mode feed is backed by saved-join rows -/

/-- Every entry of the saved-branch projection is marked saved and is backed
by a saved-join row of the viewer referencing exactly that component. -/
theorem mem_savedProjection {uid : Nat} {db : Database} {c : FeedComponent}
    (h : c ∈ savedProjection uid db) :
    c.is_saved = true ∧
    ∃ j ∈ db.saved_components, j.user_id = uid ∧ j.component_id = c.row.id := by
  simp only [savedProjection, List.mem_filterMap, Option.map_eq_some'] at h
  obtain ⟨j, hj, comp, hfind, hmk⟩ := h
  subst hmk
  have hp : (comp.id == j.component_id) = true := by
    have := List.find?_some hfind
    simpa using this
  have hjm : j ∈ db.saved_components.filter (fun j => j.user_id == uid) :=
    mem_orderByDesc.mp hj
  rw [List.mem_filter] at hjm
  have hju : j.user_id = uid := by simpa using hjm.2
  have hid : comp.id = j.component_id := by simpa using hp
  refine ⟨rfl, j, hjm.1, hju, ?_⟩
  simpa using hid.symm

/-- C4: on a successful saved-mode fetch for a signed-in viewer, every stored
feed entry is marked saved and is backed by a saved-join row of that viewer
referencing exactly that component. -/
theorem C4_saved_mode_invariant (uid : Nat) (db : Database)
    (prev : List FeedComponent) (c : FeedComponent)
    (hc : c ∈ (fetchComponents SortBy.saved (some uid) db prev allSuccess).components) :
    c.is_saved = true ∧
    ∃ j ∈ db.saved_components, j.user_id = uid ∧ j.component_id = c.row.id := by
  have hfc : fetchComponents SortBy.saved (some uid) db prev allSuccess =
      fetchSaved uid db prev allSuccess := rfl
  rw [hfc] at hc
  unfold fetchSaved at hc
  rw [if_pos (show allSuccess.savedQuery = ReqOutcome.success from rfl),
    if_neg (show ¬(allSuccess.savedLikesQuery = ReqOutcome.thrown) from by decide)] at hc
  split at hc
  · simp at hc
  · obtain ⟨c', hc', hgc⟩ := List.mem_map.mp hc
    obtain ⟨hs, j, hjm, hju, hjc⟩ := mem_savedProjection hc'
    refine ⟨?_, j, hjm, hju, ?_⟩
    · rw [← hgc]
      exact hs
    · rw [← hgc]
      exact hjc

/-! ### Concrete demonstration data -/

/-- A one-row components table entry used for concrete runs. -/
def demoComponent : ComponentRow := ⟨1, 10, "t", none, "c", [], none, 0, 0, 100⟩

/-- A database with one component, saved by user 7, no likes, no profiles. -/
def demoDb : Database := ⟨[demoComponent], [], [], [⟨7, 1, 5⟩]⟩

/-- The feed entry the saved-mode fetch produces from `demoDb` for user 7. -/
def demoSavedFeed : FeedComponent := ⟨demoComponent, none, false, true⟩

/-- An unrelated feed entry standing for the previous view state. -/
def dummyFeed : FeedComponent := ⟨⟨99, 0, "x", none, "", [], none, 0, 0, 0⟩, none, false, false⟩

/-- C4 witness: on `demoDb`, the saved-mode fetch for user 7 contains
`demoSavedFeed`, which is marked saved and backed by the saved-join row. -/
theorem C4_witness :
    demoSavedFeed ∈ (fetchComponents SortBy.saved (some 7) demoDb [] allSuccess).components ∧
    demoSavedFeed.is_saved = true ∧
    ∃ j ∈ demoDb.saved_components, j.user_id = 7 ∧ j.component_id = demoSavedFeed.row.id := by
  have hm : demoSavedFeed ∈
      (fetchComponents SortBy.saved (some 7) demoDb [] allSuccess).components := by decide
  exact ⟨hm, C4_saved_mode_invariant 7 demoDb [] demoSavedFeed hm⟩

/-! ### Claim C2: behaviour of the feed fetch when a step fails -/

/-- A run where the saved-branch likes membership query resolves with an
error result and everything else succeeds. -/
def silentOC : FetchOutcomes :=
  ⟨ReqOutcome.success, ReqOutcome.errorResult, ReqOutcome.success,
   ReqOutcome.success, ReqOutcome.success⟩

/-- A run where the main components query resolves with an error result. -/
def failMainOC : FetchOutcomes :=
  ⟨ReqOutcome.success, ReqOutcome.success, ReqOutcome.errorResult,
   ReqOutcome.success, ReqOutcome.success⟩

/-- C2 counterexample.  The claim says every failing step surfaces a
notification and leaves the list in its previous (or empty) state.  In the
concrete saved-mode fetch below the likes membership query fails with an
error result: no notification is shown, and the stored list is neither the
previous list nor empty — the error is silently swallowed and the feed is
replaced. -/
theorem C2_counterexample :
    (fetchComponents SortBy.saved (some 7) demoDb [dummyFeed] silentOC).toasts = [] ∧
    (fetchComponents SortBy.saved (some 7) demoDb [dummyFeed] silentOC).components ≠
      [dummyFeed] ∧
    (fetchComponents SortBy.saved (some 7) demoDb [dummyFeed] silentOC).components ≠
      [] := by
  decide

/-- Either the fetch's non-saved branch returns the catch record (previous
list plus the notification) or it shows no toast at all. -/
theorem fetchMain_toast_or_silent (sb : SortBy) (user : Option Nat)
    (db : Database) (prev : List FeedComponent) (oc : FetchOutcomes) :
    fetchMain sb user db prev oc = ⟨prev, [loadErrorToast], false⟩ ∨
    (fetchMain sb user db prev oc).toasts = [] := by
  by_cases h : oc.mainQuery = ReqOutcome.success
  · cases user with
    | none => exact Or.inr (by simp [fetchMain, h])
    | some uid =>
        by_cases he : (mainFeedRows sb db).isEmpty
        · exact Or.inr (by simp [fetchMain, h, he])
        · by_cases htl : oc.likesQuery = ReqOutcome.thrown
          · exact Or.inl (by simp [fetchMain, h, he, htl])
          · by_cases hts : oc.savesQuery = ReqOutcome.thrown
            · exact Or.inl (by simp [fetchMain, h, he, htl, hts])
            · exact Or.inr (by simp [fetchMain, h, he, htl, hts])
  · exact Or.inl (by simp [fetchMain, h])

/-- Either the fetch's saved branch returns the catch record or it shows no
toast at all. -/
theorem fetchSaved_toast_or_silent (uid : Nat) (db : Database)
    (prev : List FeedComponent) (oc : FetchOutcomes) :
    fetchSaved uid db prev oc = ⟨prev, [loadErrorToast], false⟩ ∨
    (fetchSaved uid db prev oc).toasts = [] := by
  unfold fetchSaved
  by_cases h : oc.savedQuery = ReqOutcome.success
  · rw [if_pos h]
    by_cases he : (savedProjection uid db).isEmpty
    · rw [if_pos he]
      exact Or.inr rfl
    · rw [if_neg he]
      by_cases ht : oc.savedLikesQuery = ReqOutcome.thrown
      · rw [if_pos ht]
        exact Or.inl rfl
      · rw [if_neg ht]
        exact Or.inr rfl
  · rw [if_neg h]
    exact Or.inl rfl

/-- A failing primary query makes the non-saved branch return the catch
record. -/
theorem fetchMain_fail {oc : FetchOutcomes} (sb : SortBy) (user : Option Nat)
    (db : Database) (prev : List FeedComponent)
    (h : oc.mainQuery ≠ ReqOutcome.success) :
    fetchMain sb user db prev oc = ⟨prev, [loadErrorToast], false⟩ := by
  unfold fetchMain
  rw [if_neg h]

/-- A failing saved-join query makes the saved branch return the catch
record. -/
theorem fetchSaved_fail {oc : FetchOutcomes} (uid : Nat) (db : Database)
    (prev : List FeedComponent) (h : oc.savedQuery ≠ ReqOutcome.success) :
    fetchSaved uid db prev oc = ⟨prev, [loadErrorToast], false⟩ := by
  unfold fetchSaved
  rw [if_neg h]

/-- An error result of the saved-branch likes query is silent: no toast. -/
theorem fetchSaved_silent {oc : FetchOutcomes} (uid : Nat) (db : Database)
    (prev : List FeedComponent) (h1 : oc.savedQuery = ReqOutcome.success)
    (h2 : oc.savedLikesQuery = ReqOutcome.errorResult) :
    (fetchSaved uid db prev oc).toasts = [] := by
  unfold fetchSaved
  rw [if_pos h1]
  by_cases he : (savedProjection uid db).isEmpty
  · rw [if_pos he]
  · rw [if_neg he, if_neg (by simp [h2])]

/-- Every feed fetch either returns the catch record (previous list plus the
failure notification) or shows no toast at all. -/
theorem fetch_toast_or_silent (sb : SortBy) (user : Option Nat)
    (db : Database) (prev : List FeedComponent) (oc : FetchOutcomes) :
    fetchComponents sb user db prev oc = ⟨prev, [loadErrorToast], false⟩ ∨
    (fetchComponents sb user db prev oc).toasts = [] := by
  have e2 : fetchComponents sb user db prev oc = fetchMain sb user db prev oc ∨
      ∃ uid, sb = SortBy.saved ∧ user = some uid := by
    cases sb <;> cases user
    · exact Or.inl rfl
    · exact Or.inl rfl
    · exact Or.inl rfl
    · exact Or.inl rfl
    · exact Or.inl rfl
    · exact Or.inr ⟨_, rfl, rfl⟩
  rcases e2 with e | ⟨uid, hsb, hu⟩
  · rw [e]
    exact fetchMain_toast_or_silent sb user db prev oc
  · subst hsb
    subst hu
    rw [show fetchComponents SortBy.saved (some uid) db prev oc =
        fetchSaved uid db prev oc from rfl]
    exact fetchSaved_toast_or_silent uid db prev oc

/-- C2 amended: whenever a feed fetch surfaces any toast it is the single
failure notification and the components list is left exactly in its previous
state; a failure of the primary list query — the saved-join query in saved
mode with a viewer, the components query in every other mode — always
surfaces that notification and keeps the previous list; but an error result
of the saved-branch likes membership query is silently swallowed: no
notification is shown (and, per the counterexample, the list is still
replaced). -/
theorem C2_fetch_notice_behavior (sb : SortBy) (user : Option Nat)
    (db : Database) (prev : List FeedComponent) (oc : FetchOutcomes) (uid : Nat) :
    ((fetchComponents sb user db prev oc).toasts ≠ [] →
      (fetchComponents sb user db prev oc).toasts = [loadErrorToast] ∧
      (fetchComponents sb user db prev oc).components = prev) ∧
    (oc.savedQuery ≠ ReqOutcome.success →
      (fetchComponents SortBy.saved (some uid) db prev oc).toasts = [loadErrorToast] ∧
      (fetchComponents SortBy.saved (some uid) db prev oc).components = prev) ∧
    ((sb ≠ SortBy.saved ∨ user = none) → oc.mainQuery ≠ ReqOutcome.success →
      (fetchComponents sb user db prev oc).toasts = [loadErrorToast] ∧
      (fetchComponents sb user db prev oc).components = prev) ∧
    (oc.savedQuery = ReqOutcome.success → oc.savedLikesQuery = ReqOutcome.errorResult →
      (fetchComponents SortBy.saved (some uid) db prev oc).toasts = []) := by
  refine ⟨?_, ?_, ?_, ?_⟩
  · intro h
    rcases fetch_toast_or_silent sb user db prev oc with k | k
    · rw [k]
      exact ⟨rfl, rfl⟩
    · exact absurd k h
  · intro h
    rw [show fetchComponents SortBy.saved (some uid) db prev oc =
        fetchSaved uid db prev oc from rfl, fetchSaved_fail uid db prev h]
    exact ⟨rfl, rfl⟩
  · intro hcond h
    have e : fetchComponents sb user db prev oc = fetchMain sb user db prev oc := by
      rcases hcond with hs | hu
      · cases sb
        · rfl
        · rfl
        · exact absurd rfl hs
      · subst hu
        cases sb <;> rfl
    rw [e, fetchMain_fail sb user db prev h]
    exact ⟨rfl, rfl⟩
  · intro h1 h2
    rw [show fetchComponents SortBy.saved (some uid) db prev oc =
        fetchSaved uid db prev oc from rfl]
    exact fetchSaved_silent uid db prev h1 h2

/-- C2 witness: concretely, a failing main query in newest mode surfaces the
notification and keeps the previous list, and a saved-mode run whose likes
membership query fails with an error result shows no toast. -/
theorem C2_witness :
    (fetchComponents SortBy.newest none demoDb [dummyFeed] failMainOC).toasts =
      [loadErrorToast] ∧
    (fetchComponents SortBy.newest none demoDb [dummyFeed] failMainOC).components =
      [dummyFeed] ∧
    (fetchComponents SortBy.saved (some 7) demoDb [dummyFeed] silentOC).toasts = [] := by
  refine ⟨?_, ?_, ?_⟩
  · exact ((C2_fetch_notice_behavior SortBy.newest none demoDb [dummyFeed]
      failMainOC 7).2.2.1 (Or.inr rfl) (by decide)).1
  · exact ((C2_fetch_notice_behavior SortBy.newest none demoDb [dummyFeed]
      failMainOC 7).2.2.1 (Or.inr rfl) (by decide)).2
  · exact (C2_fetch_notice_behavior SortBy.newest none demoDb [dummyFeed]
      silentOC 7).2.2.2 rfl rfl
